import Mathlib

/-!
Verification development for the core inventory-reservation and
payment-lifecycle engine of a real-estate CRM backend.

The Python (Django) source is shallowly embedded: ORM rows become Lean
structures, money amounts (`Decimal` / `float`) become `ℚ`, calendar dates
become day numbers in `ℤ`, nullable columns become `Option`, and code that
may raise an exception returns `Except`.  Database writes are modelled by
returning the updated rows; a `transaction.atomic` rollback is modelled by
the transactional wrapper returning the original state unchanged on error.
Status and type enumerations keep the Turkish identifiers of the source
(`SATILABILIR` = Available, `REZERVE` = Reserved, `SATILDI` = Sold,
`PASIF` = Inactive, `AKTIF` = Active, `SATISA_DONUSTU` = ConvertedToSale,
`IPTAL_EDILDI` = Cancelled, `BEKLENIYOR` = Pending, `ALINDI` = Paid,
`GECIKTI` = Overdue, `IPTAL` = Void, `PESINAT` = DownPayment,
`TAKSIT` = Installment).
-/

namespace CoreCRM

/-- Status of an inventory unit, `Property.Status` in
`apps/properties/models.py`: Available, Reserved, Sold, Inactive. -/
inductive PropertyStatus
  | satilabilir
  | rezerve
  | satildi
  | pasif
  deriving DecidableEq, Repr

/-- Status of a reservation, `Reservation.Status` in `apps/sales/models.py`:
Active, ConvertedToSale, Cancelled. -/
inductive ReservationStatus
  | aktif
  | satisaDonustu
  | iptalEdildi
  deriving DecidableEq, Repr

/-- Payment type, `Payment.PaymentType` in `apps/sales/models.py`:
Deposit, DownPayment, Installment, FinalPayment. -/
inductive PaymentType
  | kaparo
  | pesinat
  | taksit
  | kalanOdeme
  deriving DecidableEq, Repr

/-- Payment status, `Payment.Status` in `apps/sales/models.py`:
Pending, Paid, Overdue, Void. -/
inductive PaymentStatus
  | bekleniyor
  | alindi
  | gecikti
  | iptal
  deriving DecidableEq, Repr

/-- Contract status, `Contract.Status` in `apps/sales/models.py`:
Draft, AwaitingApproval, Signed, Cancelled. -/
inductive ContractStatus
  | taslak
  | onayBekliyor
  | imzalandi
  | iptal
  deriving DecidableEq, Repr

/-- Payment-plan type, `PaymentPlan.PlanType` in
`apps/properties/models.py`: Cash, Installment. -/
inductive PlanType
  | pesin
  | vadeli
  deriving DecidableEq, Repr

/-- Inventory unit row (`Property` in `apps/properties/models.py`), reduced
to the columns the reservation / payment core reads: lifecycle status and
the two price columns (`installment_price` is nullable). -/
structure Property where
  status : PropertyStatus
  cash_price : ℚ
  installment_price : Option ℚ
  deriving DecidableEq, Repr

/-- Embedding of `Property.is_available`: the unit is sellable exactly when
its status is `SATILABILIR`. -/
def Property.is_available (p : Property) : Bool :=
  match p.status with
  | PropertyStatus.satilabilir => true
  | _ => false

/-- The free-form JSON `details` payload of a `PaymentPlan` row.  Each field
models one key the code reads with `details.get(key, default)`; an absent
key is `none`. -/
structure PlanDetails where
  cash_price : Option ℚ := none
  installment_price : Option ℚ := none
  down_payment_percent : Option ℚ := none
  down_payment_amount : Option ℚ := none
  remaining_amount : Option ℚ := none
  interest_rate : Option ℚ := none
  total_with_interest : Option ℚ := none
  installment_count : Option ℤ := none
  monthly_installment : Option ℚ := none
  deriving DecidableEq, Repr

/-- Payment-plan template row (`PaymentPlan` in
`apps/properties/models.py`). -/
structure PaymentPlan where
  plan_type : PlanType
  name : String
  details : PlanDetails
  is_active : Bool := true
  deriving DecidableEq, Repr

/-- Payment row (`Payment` in `apps/sales/models.py`), reduced to the
columns the core mutates.  `payment_method` and `receipt_number` keep the
source's string representation (blank = `""`). -/
structure Payment where
  payment_type : PaymentType
  amount : ℚ
  payment_method : String := ""
  status : PaymentStatus := PaymentStatus.bekleniyor
  due_date : ℤ
  payment_date : Option ℤ := none
  receipt_number : String := ""
  installment_number : Option ℕ := none
  deriving DecidableEq, Repr

/-- Contract row (`Contract` in `apps/sales/models.py`), reduced to the one
column the cancellation guard reads. -/
structure Contract where
  status : ContractStatus := ContractStatus.taslak
  deriving DecidableEq, Repr

/-- Reservation row (`Reservation` in `apps/sales/models.py`).  The
`payment_plan_selected` foreign key is embedded as the referenced plan row;
`reservation_date` is the creation timestamp reduced to its date. -/
structure Reservation where
  status : ReservationStatus := ReservationStatus.aktif
  deposit_amount : ℚ
  deposit_payment_method : String
  deposit_receipt_number : String := ""
  reservation_date : ℤ
  expiry_date : Option ℤ := none
  notes : String := ""
  payment_plan_selected : PaymentPlan
  deriving DecidableEq, Repr

/-- Embedding of `Reservation.get_remaining_amount`: plan total (cash price
for a Cash plan, installment price otherwise, each defaulting to 0 when the
key is absent) minus the deposit. -/
def Reservation.get_remaining_amount (r : Reservation) : ℚ :=
  let plan_details := r.payment_plan_selected.details
  if r.payment_plan_selected.plan_type = PlanType.pesin then
    plan_details.cash_price.getD 0 - r.deposit_amount
  else
    plan_details.installment_price.getD 0 - r.deposit_amount

/-- Embedding of `Payment.mark_as_paid` (`apps/sales/models.py`).  `today`
stands for `timezone.now().date()`.  The method unconditionally sets the
status to `ALINDI`; `payment_date` defaults to `today` via Python `or`
(dates are always truthy, `None` is falsy); `payment_method` and
`receipt_number` are only overwritten when truthy (non-empty). -/
def Payment.mark_as_paid (p : Payment) (today : ℤ) (payment_date : Option ℤ)
    (payment_method : Option String) (receipt_number : String) : Payment :=
  { p with
    status := PaymentStatus.alindi
    payment_date := some (payment_date.getD today)
    payment_method :=
      match payment_method with
      | some m => if m = "" then p.payment_method else m
      | none => p.payment_method
    receipt_number :=
      if receipt_number = "" then p.receipt_number else receipt_number }

/-- Unit-status mapping applied by the Status Synchronization Observer
(`sync_property_status_on_reservation_change` in `apps/sales/signals.py`)
once the unit row has been found: Active flips a non-Reserved unit to
Reserved; ConvertedToSale flips a non-Sold unit to Sold; Cancelled flips the
unit back to Available only when it currently is Reserved, and otherwise
logs a warning and leaves it untouched. -/
def syncPropertyCore (reservation_status : ReservationStatus) (p : Property) :
    Property :=
  if reservation_status = ReservationStatus.aktif ∧
      p.status ≠ PropertyStatus.rezerve then
    { p with status := PropertyStatus.rezerve }
  else if reservation_status = ReservationStatus.satisaDonustu ∧
      p.status ≠ PropertyStatus.satildi then
    { p with status := PropertyStatus.satildi }
  else if reservation_status = ReservationStatus.iptalEdildi ∧
      p.status ≠ PropertyStatus.satilabilir then
    if p.status = PropertyStatus.rezerve then
      { p with status := PropertyStatus.satilabilir }
    else p
  else p

/-- Embedding of the full `post_save` handler
`sync_property_status_on_reservation_change` (`apps/sales/signals.py`).
`lookup` is the result of `Property.objects.select_for_update().get(...)`:
`none` models `Property.DoesNotExist`.  That exception is caught by its own
`except` clause, which logs a warning and falls through — the handler
returns normally with the store unchanged.  The generic `except Exception`
clause re-raises, which the `Except.error` constructor would model, but no
remaining operation of the handler can raise. -/
def sync_property_status_on_reservation_change
    (reservation_status : ReservationStatus) (lookup : Option Property) :
    Except String (Option Property) :=
  match lookup with
  | none => Except.ok none
  | some p => Except.ok (some (syncPropertyCore reservation_status p))

/-- State touched by a reservation-level transition: the reservation row,
its payments and contracts, and the inventory unit it references. -/
structure ResState where
  reservation : Reservation
  payments : List Payment
  contracts : List Contract
  property : Property
  deriving DecidableEq, Repr

/-- Embedding of `Reservation.cancel` (`apps/sales/models.py`) together
with the effects of the save: only an Active reservation may cancel; a
reservation with a Paid payment or a Signed contract refuses; on success
the status becomes `IPTAL_EDILDI`, the reason is appended to the notes, the
`post_save` observer synchronises the unit status, and all Pending/Overdue
payments are bulk-updated to Void.  A refused call returns the state
unchanged. -/
def ResState.cancel (st : ResState) (reason : String) :
    Bool × String × ResState :=
  if st.reservation.status ≠ ReservationStatus.aktif then
    (false, "Sadece aktif rezervasyonlar iptal edilebilir", st)
  else if st.payments.any
      (fun p => decide (p.status = PaymentStatus.alindi)) then
    (false, "Odeme alinmis rezervasyonlar iptal edilemez", st)
  else if st.contracts.any
      (fun c => decide (c.status = ContractStatus.imzalandi)) then
    (false, "Imzali sozlesmeli rezervasyonlar iptal edilemez", st)
  else
    let r := st.reservation
    let r2 : Reservation :=
      { r with
        status := ReservationStatus.iptalEdildi
        notes :=
          if reason ≠ "" then r.notes ++ "\n\nIptal Nedeni: " ++ reason
          else r.notes }
    let prop2 := syncPropertyCore r2.status st.property
    let pays2 := st.payments.map (fun p =>
      if p.status = PaymentStatus.bekleniyor ∨
          p.status = PaymentStatus.gecikti then
        { p with status := PaymentStatus.iptal }
      else p)
    (true, "Rezervasyon basariyla iptal edildi",
      { reservation := r2, payments := pays2, contracts := st.contracts,
        property := prop2 })

/-- Single-payment update step of the overdue sweep: a Pending payment past
its due date becomes Overdue, anything else is untouched. -/
def sweepOne (today : ℤ) (p : Payment) : Payment :=
  if p.status = PaymentStatus.bekleniyor ∧ p.due_date < today then
    { p with status := PaymentStatus.gecikti }
  else p

/-- Embedding of `PaymentService.auto_update_overdue_payments`
(`apps/sales/services.py`): bulk-update of every Pending payment whose
`due_date` lies strictly before `today` to Overdue.  The second component
is the row count reported by `.update(...)`. -/
def auto_update_overdue_payments (payments : List Payment) (today : ℤ) :
    List Payment × ℕ :=
  (payments.map (sweepOne today),
   payments.countP (fun p =>
     decide (p.status = PaymentStatus.bekleniyor ∧ p.due_date < today)))

/-- Python `x or y` applied to an optional Decimal price
(`installment_price or cash_price`): both `None` and `0` are falsy. -/
def priceOr (a : Option ℚ) (b : ℚ) : ℚ :=
  match a with
  | some v => if v = 0 then b else v
  | none => b

/-- Model of Python `round(x, 2)` applied to the exact rational value. -/
def round2 (q : ℚ) : ℚ := (round (q * 100) : ℤ) / 100

/-- The only exception the plan calculator can raise: dividing by an
installment count of zero (`ZeroDivisionError`). -/
inductive CalcError
  | zeroDivision
  deriving DecidableEq, Repr

/-- Result dictionary of `PropertyService.calculate_payment_plan`. -/
structure PlanResult where
  installment_price : ℚ
  down_payment_percent : ℚ
  down_payment_amount : ℚ
  remaining_amount : ℚ
  interest_rate : ℚ
  total_with_interest : ℚ
  installment_count : ℤ
  monthly_installment : ℚ
  deriving DecidableEq, Repr

/-- Embedding of `PropertyService.calculate_payment_plan`
(`apps/properties/services.py`).  The function performs no input
validation; the only failure is the `ZeroDivisionError` raised at
`... / installment_count` when the count is zero, modelled by the error
branch placed at the corresponding division of each interest branch. -/
def calculate_payment_plan (p : Property) (down_payment_percent : ℚ)
    (installment_count : ℤ) (interest_rate : ℚ) :
    Except CalcError PlanResult :=
  let installment_price := priceOr p.installment_price p.cash_price
  let down_payment_amount := installment_price * (down_payment_percent / 100)
  let remaining_amount := installment_price - down_payment_amount
  if interest_rate > 0 then
    if installment_count = 0 then Except.error CalcError.zeroDivision
    else
      let total_with_interest := remaining_amount * (1 + interest_rate / 100)
      Except.ok
        { installment_price := round2 installment_price
          down_payment_percent := down_payment_percent
          down_payment_amount := round2 down_payment_amount
          remaining_amount := round2 remaining_amount
          interest_rate := interest_rate
          total_with_interest := round2 total_with_interest
          installment_count := installment_count
          monthly_installment :=
            round2 (total_with_interest / (installment_count : ℚ)) }
  else
    if installment_count = 0 then Except.error CalcError.zeroDivision
    else
      Except.ok
        { installment_price := round2 installment_price
          down_payment_percent := down_payment_percent
          down_payment_amount := round2 down_payment_amount
          remaining_amount := round2 remaining_amount
          interest_rate := interest_rate
          total_with_interest := round2 remaining_amount
          installment_count := installment_count
          monthly_installment :=
            round2 (remaining_amount / (installment_count : ℚ)) }

/-- Validated payload of a reservation-creation request
(`ReservationCreateSerializer`, `apps/sales/serializers.py`).
`payment_plan_selected` is a positive template id or one of the synthesis
sentinels `-1` (cash) / `-2` (installment).  The final three fields appear
in requests but are NOT declared on the serializer, whose declared fields
are only property, customer, sales_rep, payment_plan_selected,
deposit_amount, deposit_payment_method, deposit_receipt_number,
expiry_date and notes; the framework silently drops undeclared input keys,
so `create` below never reads them. -/
structure CreateRequest where
  payment_plan_selected : ℤ
  deposit_amount : ℚ
  deposit_payment_method : String
  deposit_receipt_number : String := ""
  expiry_date : Option ℤ := none
  notes : String := ""
  down_payment_percent : Option ℚ := none
  installment_count : Option ℤ := none
  interest_rate : Option ℚ := none
  deriving DecidableEq, Repr

/-- Deposit-equality and expiry checks at the tail of
`ReservationCreateSerializer.validate`: the cash sentinel `-1` demands a
deposit exactly equal to the unit's cash price, and an expiry date must not
lie in the past. -/
def validateDepositAndExpiry (p : Property) (req : CreateRequest)
    (today : ℤ) : Except String Unit :=
  if req.payment_plan_selected = -1 ∧ req.deposit_amount ≠ p.cash_price then
    Except.error "Pesin odemede kaparo tutari mulkun pesin fiyatina esit olmalidir"
  else
    match req.expiry_date with
    | some d =>
        if d < today then
          Except.error "Son gecerlilik tarihi gecmiste olamaz"
        else Except.ok ()
    | none => Except.ok ()

/-- Embedding of `ReservationCreateSerializer.validate_property` followed by
`ReservationCreateSerializer.validate`.  `property_id` identifies the target
unit; `planLookup` is the result of `PaymentPlan.objects.get(id=...)` for a
positive `payment_plan_selected`, paired with the id of the property owning
the found plan (`none` models `PaymentPlan.DoesNotExist`). -/
def validateReservation (property_id : ℤ) (p : Property)
    (planLookup : Option (ℤ × PaymentPlan)) (req : CreateRequest)
    (today : ℤ) : Except String Unit :=
  if ¬ p.is_available then
    Except.error "Bu mulk satilabilir durumda degil"
  else if req.payment_plan_selected > 0 then
    match planLookup with
    | none => Except.error "Secilen odeme plani bulunamadi"
    | some (ownerId, _plan) =>
        if ownerId ≠ property_id then
          Except.error "Secilen odeme plani bu mulke ait degil"
        else validateDepositAndExpiry p req today
  else validateDepositAndExpiry p req today

/-- Python truthiness of `details.get('installment_count')`: an absent key
(`None`) and `0` are falsy. -/
def truthyCount (c : Option ℤ) : Bool :=
  match c with
  | none => false
  | some v => decide (v ≠ 0)

/-- Embedding of `ReservationCreateSerializer._create_installment_payments`
(`apps/sales/serializers.py`): one Pending `TAKSIT` payment per installment,
the first due 30 days after the reservation date and each following one 30
days later (`due_date = first + 30*(i-1)` for `i = k+1`).  This helper
creates no down-payment record. -/
def create_installment_payments (reservation : Reservation)
    (payment_plan : PaymentPlan) : List Payment :=
  let details := payment_plan.details
  let installment_count := details.installment_count.getD 0
  let monthly_installment := details.monthly_installment.getD 0
  let first_payment_date := reservation.reservation_date + 30
  (List.range installment_count.toNat).map (fun (k : ℕ) =>
    { payment_type := PaymentType.taksit
      amount := monthly_installment
      status := PaymentStatus.bekleniyor
      due_date := first_payment_date + 30 * (k : ℤ)
      installment_number := some (k + 1) })

/-- Locked section of `ReservationCreateSerializer.create`: re-validation of
availability under `select_for_update`, creation of the reservation row (its
`post_save` signal flips the locked unit to Reserved), the subsequent
`property_to_update.reserve()` call (which re-checks the stale in-memory row
— still Available — and writes Reserved again; the net stored status is
Reserved either way), and conditional installment generation, which runs
only for an installment-typed plan whose details carry a truthy
`installment_count`. -/
def createLocked (propAtLock : Property) (req : CreateRequest) (now : ℤ)
    (payment_plan_obj : PaymentPlan) :
    Except String (Reservation × Property × PaymentPlan × List Payment) :=
  if ¬ propAtLock.is_available then
    Except.error "Bu mulk artik satilabilir durumda degil"
  else
    let reservation : Reservation :=
      { status := ReservationStatus.aktif
        deposit_amount := req.deposit_amount
        deposit_payment_method := req.deposit_payment_method
        deposit_receipt_number := req.deposit_receipt_number
        reservation_date := now
        expiry_date := req.expiry_date
        notes := req.notes
        payment_plan_selected := payment_plan_obj }
    let prop1 := syncPropertyCore ReservationStatus.aktif propAtLock
    let prop2 :=
      if propAtLock.is_available then
        { prop1 with status := PropertyStatus.rezerve }
      else prop1
    let payments :=
      if payment_plan_obj.plan_type = PlanType.vadeli ∧
          truthyCount payment_plan_obj.details.installment_count = true then
        create_installment_payments reservation payment_plan_obj
      else []
    Except.ok (reservation, prop2, payment_plan_obj, payments)

/-- Embedding of `ReservationCreateSerializer.create`
(`apps/sales/serializers.py`).  Sentinel `-1` synthesizes a Cash plan whose
details hold only the unit's cash price; sentinel `-2` synthesizes an
Installment plan whose details hold only the unit's installment price
(falling back to the cash price via Python `or`); a positive id resolves an
existing plan through `planLookup` (`none` models
`PaymentPlan.DoesNotExist`).  `propAtLock` is the unit row as re-read under
`select_for_update`; `now` is `timezone.now()` reduced to its date. -/
def createReservation (propAtLock : Property)
    (planLookup : Option PaymentPlan) (req : CreateRequest) (now : ℤ) :
    Except String (Reservation × Property × PaymentPlan × List Payment) :=
  if req.payment_plan_selected = -1 then
    createLocked propAtLock req now
      { plan_type := PlanType.pesin
        name := "Pesin Odeme (Otomatik)"
        details := { cash_price := some propAtLock.cash_price }
        is_active := true }
  else if req.payment_plan_selected = -2 then
    createLocked propAtLock req now
      { plan_type := PlanType.vadeli
        name := "Vadeli Odeme (Otomatik)"
        details :=
          { installment_price :=
              some (priceOr propAtLock.installment_price
                propAtLock.cash_price) }
        is_active := true }
  else
    match planLookup with
    | some pl => createLocked propAtLock req now pl
    | none => Except.error "Gecersiz odeme plani IDsi"

/-- The reservation and payment tables of the store, as far as a creation
attempt writes them. -/
structure SalesStore where
  reservations : List Reservation
  payments : List Payment
  deriving DecidableEq, Repr

/-- The `transaction.atomic` boundary around
`ReservationCreateSerializer.create`: on success the created rows are
committed, on any raised exception every write of the attempt is rolled
back and the store is returned unchanged. -/
def createReservationTx (store : SalesStore) (propAtLock : Property)
    (planLookup : Option PaymentPlan) (req : CreateRequest) (now : ℤ) :
    Option String × SalesStore :=
  match createReservation propAtLock planLookup req now with
  | Except.error e => (some e, store)
  | Except.ok (r, _prop, _plan, pays) =>
      (none,
        { reservations := store.reservations ++ [r]
          payments := store.payments ++ pays })

/-- Embedding of `ReservationService._create_installment_schedule`
(`apps/sales/services.py`): when the plan details carry a positive
`down_payment_amount`, one `PESINAT` payment is created, due and paid on the
reservation date, carrying the deposit's payment method and receipt number
and immediately marked Paid; then one Pending `TAKSIT` payment per
installment, the first due 30 days after the reservation date and each
following one 30 days later. -/
def create_installment_schedule (reservation : Reservation)
    (payment_plan : PaymentPlan) : List Payment :=
  let details := payment_plan.details
  let down_payment_amount := details.down_payment_amount.getD 0
  let downs : List Payment :=
    if down_payment_amount > 0 then
      [{ payment_type := PaymentType.pesinat
         amount := down_payment_amount
         status := PaymentStatus.alindi
         due_date := reservation.reservation_date
         payment_date := some reservation.reservation_date
         payment_method := reservation.deposit_payment_method
         receipt_number := reservation.deposit_receipt_number }]
    else []
  let installment_count := details.installment_count.getD 0
  let monthly_installment := details.monthly_installment.getD 0
  let first_installment_date := reservation.reservation_date + 30
  downs ++ (List.range installment_count.toNat).map (fun (k : ℕ) =>
    { payment_type := PaymentType.taksit
      amount := monthly_installment
      status := PaymentStatus.bekleniyor
      due_date := first_installment_date + 30 * (k : ℤ)
      installment_number := some (k + 1) })

/-- The installment-typed rows of a generated schedule. -/
def installmentsOf (sched : List Payment) : List Payment :=
  sched.filter (fun p => decide (p.payment_type = PaymentType.taksit))

/-! Helper lemmas about the overdue sweep. -/

/-- Applying the per-payment sweep step twice is the same as applying it
once. -/
theorem sweepOne_idem (today : ℤ) (p : Payment) :
    sweepOne today (sweepOne today p) = sweepOne today p := by
  unfold sweepOne
  by_cases h : p.status = PaymentStatus.bekleniyor ∧ p.due_date < today
  · rw [if_pos h, if_neg (by simp)]
  · rw [if_neg h, if_neg h]

/-- After one sweep step a payment is never again Pending-and-past-due. -/
theorem sweepOne_not_pending (today : ℤ) (p : Payment) :
    ¬ ((sweepOne today p).status = PaymentStatus.bekleniyor ∧
        (sweepOne today p).due_date < today) := by
  unfold sweepOne
  by_cases h : p.status = PaymentStatus.bekleniyor ∧ p.due_date < today
  · rw [if_pos h]; simp
  · rw [if_neg h]; exact h

/-- Claim C3: for every persisted Reservation status write, if the
referenced inventory unit does not exist, the Status Synchronization
Observer re-raises the error so that the enclosing transaction aborts.
This is FALSE of the code: `Property.DoesNotExist` is caught by its own
`except` clause, which only logs a warning and falls through, so at the
concrete input below the observer returns normally instead of raising. -/
theorem claim3_counterexample :
    sync_property_status_on_reservation_change ReservationStatus.aktif none
        = Except.ok none
    ∧ ¬ ∃ e, sync_property_status_on_reservation_change
        ReservationStatus.aktif none = Except.error e := by
  constructor
  · rfl
  · rintro ⟨e, h⟩
    simp [sync_property_status_on_reservation_change] at h

/-- Claim C3 (amended): for every persisted Reservation status write whose
referenced inventory unit does not exist, the Status Synchronization
Observer catches the missing-unit error, logs a warning, and returns
normally without modifying the store — it does not re-raise, so the
enclosing transaction is not aborted by this case; only the generic
exception branch re-raises. -/
theorem claim3_missing_unit_swallowed (rs : ReservationStatus) :
    sync_property_status_on_reservation_change rs none = Except.ok none :=
  rfl

/-- Concrete Void payment used to exercise `mark_as_paid`. -/
def voidPaymentC6 : Payment :=
  { payment_type := PaymentType.taksit
    amount := 100
    status := PaymentStatus.iptal
    due_date := 10 }

/-- Claim C6: markPaid transitions a Pending or Overdue payment to Paid and
fails, leaving the payment unchanged, when the payment's status is Void.
The failure half is FALSE of the code: `Payment.mark_as_paid` performs no
status check at all, so at the concrete Void payment below it succeeds and
rewrites the status to Paid instead of failing and leaving it unchanged. -/
theorem claim6_counterexample :
    voidPaymentC6.status = PaymentStatus.iptal
    ∧ (voidPaymentC6.mark_as_paid 50 none none "").status
        = PaymentStatus.alindi
    ∧ voidPaymentC6.mark_as_paid 50 none none "" ≠ voidPaymentC6 := by
  refine ⟨rfl, rfl, ?_⟩
  intro h
  have := congrArg Payment.status h
  simp [Payment.mark_as_paid, voidPaymentC6] at this

/-- Claim C6 (amended): markPaid transitions every payment — Pending or
Overdue, but equally a Void one, since the method performs no status check —
to Paid, defaulting the payment date to the current date when none is
supplied and keeping a supplied date otherwise. -/
theorem claim6_mark_as_paid_unconditional (p : Payment) (today d : ℤ)
    (pm : Option String) (rn : String) :
    ((p.mark_as_paid today none pm rn).status = PaymentStatus.alindi
      ∧ (p.mark_as_paid today none pm rn).payment_date = some today)
    ∧ ((p.mark_as_paid today (some d) pm rn).status = PaymentStatus.alindi
      ∧ (p.mark_as_paid today (some d) pm rn).payment_date = some d) := by
  simp [Payment.mark_as_paid]

/-- Concrete unit used to exercise the plan calculator. -/
def unitC8 : Property :=
  { status := PropertyStatus.satilabilir
    cash_price := 600000
    installment_price := some 600000 }

/-- Claim C8: the installment-plan calculator rejects an installment count
below 1 with a validation rejection rather than dividing by the count.
This is FALSE of the code: `PropertyService.calculate_payment_plan`
performs no validation, and at the concrete count `-1` below it divides
happily and returns a computed plan (with a negative monthly installment)
instead of rejecting. -/
theorem claim8_counterexample :
    (calculate_payment_plan unitC8 20 (-1) 0).isOk = true
    ∧ ((-1 : ℤ) < 1) := by
  constructor
  · rfl
  · decide

/-- Claim C8 (amended): the calculator itself performs no installment-count
validation — rejection of counts below 1 happens only in the plan-creation
serializer at the API layer.  For every nonzero count (including negative
ones) the division is well-defined and the calculator returns a computed
plan with no error branch reachable, which in particular covers the
claimed precondition count ≥ 1; a count of exactly 0 raises
`ZeroDivisionError` at the division, not a validation rejection. -/
theorem claim8_calculator_no_validation (p : Property)
    (down_payment_percent interest_rate : ℚ) (installment_count : ℤ) :
    (installment_count ≠ 0 →
      (calculate_payment_plan p down_payment_percent installment_count
          interest_rate).isOk = true)
    ∧ calculate_payment_plan p down_payment_percent 0 interest_rate
        = Except.error CalcError.zeroDivision := by
  constructor
  · intro h
    unfold calculate_payment_plan
    by_cases hr : interest_rate > 0
    · simp only [if_pos hr, if_neg h, Except.isOk, Except.toBool]
    · simp only [if_neg hr, if_neg h, Except.isOk, Except.toBool]
  · unfold calculate_payment_plan
    by_cases hr : interest_rate > 0
    · simp [hr]
    · simp [hr]

/-- Witness for C8's amended theorem at a concrete input. -/
theorem claim8_witness :
    (calculate_payment_plan unitC8 20 6 0).isOk = true
    ∧ calculate_payment_plan unitC8 20 0 0
        = Except.error CalcError.zeroDivision :=
  ⟨(claim8_calculator_no_validation unitC8 20 0 6).1 (by decide),
   (claim8_calculator_no_validation unitC8 20 0 6).2⟩

/-- Claim C9: the overdue sweep is idempotent — running it twice with the
same `asOfDate` yields the same payments and the same set of Overdue
payments as running it once, and the second run updates zero rows, so
rerunning it on an already-Overdue payment changes nothing. -/
theorem claim9_sweep_idempotent (ps : List Payment) (today : ℤ) :
    (auto_update_overdue_payments
        (auto_update_overdue_payments ps today).1 today).1
      = (auto_update_overdue_payments ps today).1
    ∧ (auto_update_overdue_payments
        (auto_update_overdue_payments ps today).1 today).2 = 0
    ∧ ((auto_update_overdue_payments
          (auto_update_overdue_payments ps today).1 today).1.filter
        (fun p => decide (p.status = PaymentStatus.gecikti)))
      = ((auto_update_overdue_payments ps today).1.filter
        (fun p => decide (p.status = PaymentStatus.gecikti))) := by
  have h1 : (auto_update_overdue_payments
      (auto_update_overdue_payments ps today).1 today).1
      = (auto_update_overdue_payments ps today).1 := by
    simp only [auto_update_overdue_payments, List.map_map]
    induction ps with
    | nil => rfl
    | cons p t ih =>
        simp only [List.map_cons, Function.comp_apply, sweepOne_idem,
          List.cons.injEq, true_and]
        exact ih
  refine ⟨h1, ?_, by rw [h1]⟩
  simp only [auto_update_overdue_payments]
  rw [List.countP_map]
  apply List.countP_eq_zero.mpr
  intro p _
  simp only [Function.comp_apply, decide_eq_true_eq]
  exact sweepOne_not_pending today p

/-- Claim C4: sold is sticky — cancelling a reservation already in
ConvertedToSale returns failure and leaves the whole state (reservation
included) unchanged; and on a persisted Cancelled status the observer
writes Available only when the unit currently is Reserved, so a unit whose
status is not Reserved (in particular a Sold one) is left untouched and
never reverted to Available. -/
theorem claim4_sold_sticky (st : ResState) (reason : String) (p : Property)
    (hres : st.reservation.status = ReservationStatus.satisaDonustu)
    (hprop : p.status ≠ PropertyStatus.rezerve) :
    (st.cancel reason).1 = false
    ∧ (st.cancel reason).2.2 = st
    ∧ syncPropertyCore ReservationStatus.iptalEdildi p = p := by
  have h1 : st.reservation.status ≠ ReservationStatus.aktif := by
    rw [hres]; simp
  refine ⟨?_, ?_, ?_⟩
  · unfold ResState.cancel; rw [if_pos h1]
  · unfold ResState.cancel; rw [if_pos h1]
  · by_cases hs : p.status = PropertyStatus.satilabilir
    · simp [syncPropertyCore, hs]
    · simp [syncPropertyCore, hs, hprop]

/-- Concrete state used to exercise `claim4_sold_sticky`: a converted
reservation on a sold unit. -/
def planC4 : PaymentPlan :=
  { plan_type := PlanType.pesin
    name := "Pesin Odeme"
    details := { cash_price := some 500000 } }

/-- Sold unit for the C4 witness. -/
def propC4 : Property :=
  { status := PropertyStatus.satildi
    cash_price := 500000
    installment_price := none }

/-- Converted-to-sale reservation state for the C4 witness. -/
def stC4 : ResState :=
  { reservation :=
      { status := ReservationStatus.satisaDonustu
        deposit_amount := 1000
        deposit_payment_method := "NAKIT"
        reservation_date := 0
        payment_plan_selected := planC4 }
    payments := []
    contracts := []
    property := propC4 }

/-- Witness for C4 at a concrete converted reservation and sold unit. -/
theorem claim4_witness :
    (stC4.cancel "geri al").1 = false
    ∧ (stC4.cancel "geri al").2.2 = stC4
    ∧ syncPropertyCore ReservationStatus.iptalEdildi propC4 = propC4 :=
  claim4_sold_sticky stC4 "geri al" propC4 rfl (by decide)

/-- Claim C5: cancelling an Active reservation that has at least one Paid
payment (or at least one signed contract) returns failure and leaves all
state unchanged — reservation, notes, payments and the unit's status. -/
theorem claim5_cancel_guard (st : ResState) (reason : String)
    (hres : st.reservation.status = ReservationStatus.aktif)
    (h : (∃ p ∈ st.payments, p.status = PaymentStatus.alindi)
        ∨ (∃ c ∈ st.contracts, c.status = ContractStatus.imzalandi)) :
    (st.cancel reason).1 = false ∧ (st.cancel reason).2.2 = st := by
  have h1 : ¬ st.reservation.status ≠ ReservationStatus.aktif := by
    rw [hres]; simp
  unfold ResState.cancel
  rw [if_neg h1]
  by_cases hp : st.payments.any
      (fun p => decide (p.status = PaymentStatus.alindi)) = true
  · rw [if_pos hp]; exact ⟨rfl, rfl⟩
  · rw [if_neg hp]
    have hc : st.contracts.any
        (fun c => decide (c.status = ContractStatus.imzalandi)) = true := by
      rcases h with ⟨p0, hmem, hstat⟩ | ⟨c0, hmem, hstat⟩
      · exact absurd (List.any_eq_true.mpr ⟨p0, hmem, by simp [hstat]⟩) hp
      · exact List.any_eq_true.mpr ⟨c0, hmem, by simp [hstat]⟩
    rw [if_pos hc]; exact ⟨rfl, rfl⟩

/-- Concrete state used to exercise `claim5_cancel_guard`: an Active
reservation with one Paid down payment on a reserved unit. -/
def stC5 : ResState :=
  { reservation :=
      { status := ReservationStatus.aktif
        deposit_amount := 1000
        deposit_payment_method := "NAKIT"
        reservation_date := 0
        payment_plan_selected :=
          { plan_type := PlanType.vadeli
            name := "Vadeli"
            details := { installment_price := some 600000 } } }
    payments :=
      [{ payment_type := PaymentType.pesinat
         amount := 120000
         status := PaymentStatus.alindi
         due_date := 0 }]
    contracts := []
    property :=
      { status := PropertyStatus.rezerve
        cash_price := 500000
        installment_price := some 600000 } }

/-- Witness for C5 at a concrete Active reservation with a Paid payment. -/
theorem claim5_witness :
    (stC5.cancel "vazgecti").1 = false
    ∧ (stC5.cancel "vazgecti").2.2 = stC5 :=
  claim5_cancel_guard stC5 "vazgecti" rfl
    (Or.inl ⟨{ payment_type := PaymentType.pesinat
               amount := 120000
               status := PaymentStatus.alindi
               due_date := 0 }, by decide, rfl⟩)

/-- Claim C2: for every reservation-creation attempt, if after acquiring
the exclusive lock the unit's status is not Available, the operation fails
with an error and the transactional wrapper leaves the store unchanged —
no Reservation row and no Payment row created by the attempt survives. -/
theorem claim2_conflict_rollback (store : SalesStore) (p : Property)
    (planLookup : Option PaymentPlan) (req : CreateRequest) (now : ℤ)
    (h : p.status ≠ PropertyStatus.satilabilir) :
    (∃ e, (createReservationTx store p planLookup req now).1 = some e)
    ∧ (createReservationTx store p planLookup req now).2 = store := by
  have hav : p.is_available = false := by
    unfold Property.is_available
    cases hs : p.status
    · exact absurd hs h
    · rfl
    · rfl
    · rfl
  have hfail : ∃ e, createReservation p planLookup req now
      = Except.error e := by
    unfold createReservation createLocked
    by_cases h1 : req.payment_plan_selected = -1
    · simp [h1, hav]
    · by_cases h2 : req.payment_plan_selected = -2
      · simp [h1, h2, hav]
      · cases planLookup with
        | none => simp [h1, h2]
        | some pl => simp [h1, h2, hav]
  obtain ⟨e, he⟩ := hfail
  unfold createReservationTx
  rw [he]
  exact ⟨⟨e, rfl⟩, rfl⟩

/-- Concrete already-reserved unit for the C2 witness. -/
def propC2 : Property :=
  { status := PropertyStatus.rezerve
    cash_price := 500000
    installment_price := none }

/-- Concrete creation request for the C2 witness. -/
def reqC2 : CreateRequest :=
  { payment_plan_selected := -1
    deposit_amount := 500000
    deposit_payment_method := "NAKIT" }

/-- Empty store for the C2 witness. -/
def storeC2 : SalesStore := { reservations := [], payments := [] }

/-- Witness for C2 at a concrete reserved unit: the attempt errors and the
store is unchanged. -/
theorem claim2_witness :
    (∃ e, (createReservationTx storeC2 propC2 none reqC2 0).1 = some e)
    ∧ (createReservationTx storeC2 propC2 none reqC2 0).2 = storeC2 :=
  claim2_conflict_rollback storeC2 propC2 none reqC2 0 (by decide)

/-- Claim C10: with the cash-synthesis sentinel `-1`, validation rejects a
request unless the deposit equals the unit's cash price; with the
installment sentinel `-2` or an owned concrete template id, no equality
between the deposit and any price is required. -/
theorem claim10_cash_sentinel_deposit (pid : ℤ) (p : Property)
    (planLookup : Option (ℤ × PaymentPlan)) (req : CreateRequest)
    (today : ℤ) (hav : p.status = PropertyStatus.satilabilir)
    (hexp : ∀ d, req.expiry_date = some d → ¬ d < today) :
    ((req.payment_plan_selected = -1 ∧ req.deposit_amount ≠ p.cash_price) →
        ∃ e, validateReservation pid p planLookup req today
          = Except.error e)
    ∧ ((req.payment_plan_selected = -1
          ∧ req.deposit_amount = p.cash_price) →
        validateReservation pid p planLookup req today = Except.ok ())
    ∧ (req.payment_plan_selected = -2 →
        validateReservation pid p planLookup req today = Except.ok ())
    ∧ (∀ ownerId plan, req.payment_plan_selected > 0 →
        planLookup = some (ownerId, plan) → ownerId = pid →
        validateReservation pid p planLookup req today = Except.ok ()) := by
  have hA : p.is_available = true := by
    unfold Property.is_available; rw [hav]
  have hA2 : ¬ (¬ p.is_available = true) := by simp [hA]
  have hde_ok : ∀ (_ : ¬ (req.payment_plan_selected = -1
        ∧ req.deposit_amount ≠ p.cash_price)),
      validateDepositAndExpiry p req today = Except.ok () := by
    intro hne
    unfold validateDepositAndExpiry
    rw [if_neg hne]
    cases he : req.expiry_date with
    | none => rfl
    | some d => simp [hexp d he]
  refine ⟨?_, ?_, ?_, ?_⟩
  · rintro ⟨hsel, hdep⟩
    unfold validateReservation
    rw [if_neg hA2, if_neg (by rw [hsel]; decide)]
    unfold validateDepositAndExpiry
    rw [if_pos ⟨hsel, hdep⟩]
    exact ⟨_, rfl⟩
  · rintro ⟨hsel, hdep⟩
    unfold validateReservation
    rw [if_neg hA2, if_neg (by rw [hsel]; decide)]
    exact hde_ok (by rintro ⟨_, hne⟩; exact hne hdep)
  · intro hsel
    unfold validateReservation
    rw [if_neg hA2, if_neg (by rw [hsel]; decide)]
    refine hde_ok ?_
    rintro ⟨h1, _⟩
    rw [hsel] at h1
    exact absurd h1 (by decide)
  · intro ownerId plan hpos hlook howner
    rcases hlook with rfl
    unfold validateReservation
    rw [if_neg hA2, if_pos hpos]
    simp only []
    rw [if_neg (by simp [howner])]
    refine hde_ok ?_
    rintro ⟨h1, _⟩
    rw [h1] at hpos
    exact absurd hpos (by decide)

/-- Available unit with no installment price for the C10 witness. -/
def unitC10 : Property :=
  { status := PropertyStatus.satilabilir
    cash_price := 500000
    installment_price := none }

/-- Cash-sentinel request with a deposit below the cash price for the C10
witness. -/
def reqC10 : CreateRequest :=
  { payment_plan_selected := -1
    deposit_amount := 400000
    deposit_payment_method := "NAKIT" }

/-- Witness for C10: the cash sentinel with a mismatched deposit is
rejected. -/
theorem claim10_witness :
    ∃ e, validateReservation 1 unitC10 none reqC10 0 = Except.error e :=
  (claim10_cash_sentinel_deposit 1 unitC10 none reqC10 0 rfl
      (fun _ h => Option.noConfusion h)).1 ⟨rfl, by decide⟩

/-- Available unit with installment price 600000, from the C1 scenario. -/
def unitC1 : Property :=
  { status := PropertyStatus.satilabilir
    cash_price := 500000
    installment_price := some 600000 }

/-- The C1 scenario request: installment sentinel `-2`, a deposit of
120000 (20 percent of the installment price), and the extra synthesis
fields the scenario supplies. -/
def reqC1 : CreateRequest :=
  { payment_plan_selected := -2
    deposit_amount := 120000
    deposit_payment_method := "NAKIT"
    down_payment_percent := some 20
    installment_count := some 6
    interest_rate := some 0 }

/-- The plan actually synthesized for the C1 scenario: only the installment
price is recorded; no count, no rate, no monthly installment. -/
def planC1 : PaymentPlan :=
  { plan_type := PlanType.vadeli
    name := "Vadeli Odeme (Otomatik)"
    details := { installment_price := some 600000 }
    is_active := true }

/-- The reservation row created in the C1 scenario. -/
def resC1 : Reservation :=
  { status := ReservationStatus.aktif
    deposit_amount := 120000
    deposit_payment_method := "NAKIT"
    reservation_date := 0
    payment_plan_selected := planC1 }

/-- Claim C1: the `-2` scenario is claimed to produce a ledger with one
Paid DownPayment of 120000 plus six Pending Installments of 80000.  This
is FALSE of the code: the request below passes validation and the create
succeeds, but the serializer ignores the undeclared synthesis fields and
records only the installment price in the plan, so the installment branch
(guarded by a truthy `installment_count` in the plan details) never runs
and the created ledger is EMPTY — zero DownPayment rows instead of the
claimed one, zero Installment rows instead of the claimed six.  Only the
`remaining_amount = 480000` half of the claim survives. -/
theorem claim1_counterexample :
    validateReservation 1 unitC1 none reqC1 0 = Except.ok ()
    ∧ createReservation unitC1 none reqC1 0 =
        Except.ok
          (resC1,
           { status := PropertyStatus.rezerve
             cash_price := 500000
             installment_price := some 600000 },
           planC1, ([] : List Payment))
    ∧ resC1.get_remaining_amount = 480000
    ∧ ([] : List Payment).countP
        (fun q => decide (q.payment_type = PaymentType.pesinat)) = 0
    ∧ ([] : List Payment).countP
        (fun q => decide (q.payment_type = PaymentType.taksit)) = 0
    ∧ (0 : ℕ) ≠ 1 ∧ (0 : ℕ) ≠ 6 := by
  refine ⟨rfl, rfl, ?_, rfl, rfl, by decide, by decide⟩
  show (600000 : ℚ) - 120000 = 480000
  norm_num

/-- Claim C1 (amended): for every accepted creation request carrying the
installment sentinel `-2` against an Available unit with installment price
600000, the created reservation's plan records only the installment price
(in particular no installment count), the ledger created by the attempt is
empty, and `remaining_amount` equals 600000 minus the request's deposit
(480000 exactly when the deposit is the 20-percent down payment of
120000); the request's `down_payment_percent`, `installment_count` and
`interest_rate` fields are dropped by the serializer. -/
theorem claim1_installment_sentinel (p : Property)
    (planLookup : Option PaymentPlan) (req : CreateRequest) (now : ℤ)
    (hp : p.status = PropertyStatus.satilabilir)
    (hip : p.installment_price = some 600000)
    (hsel : req.payment_plan_selected = -2) :
    ∃ r prop plan,
      createReservation p planLookup req now = Except.ok (r, prop, plan, [])
      ∧ r.get_remaining_amount = 600000 - req.deposit_amount
      ∧ plan.details.installment_count = none := by
  obtain ⟨pst, pcash, pip⟩ := p
  obtain ⟨sel, dep, dpm, drn, expd, nts, dpp, ic, ir⟩ := req
  simp only at hp hip hsel
  subst hp; subst hip; subst hsel
  exact ⟨_, _, _, rfl, rfl, rfl⟩

/-- Witness for C1's amended theorem at the concrete scenario request. -/
theorem claim1_witness :
    ∃ r prop plan,
      createReservation unitC1 none reqC1 0 = Except.ok (r, prop, plan, [])
      ∧ r.get_remaining_amount = 600000 - reqC1.deposit_amount
      ∧ plan.details.installment_count = none :=
  claim1_installment_sentinel unitC1 none reqC1 0 rfl rfl rfl

/-- Fully parameterized installment plan (20 percent down, 6 installments,
zero rate on a 600000 installment price) used to exercise the service-layer
schedule generator. -/
def planC7 : PaymentPlan :=
  { plan_type := PlanType.vadeli
    name := "Yuzde 20 Pesin, 6 Ay Vade"
    details :=
      { installment_price := some 600000
        down_payment_percent := some 20
        down_payment_amount := some 120000
        remaining_amount := some 480000
        interest_rate := some 0
        installment_count := some 6
        monthly_installment := some 80000 } }

/-- Reservation dated at day 0 holding `planC7`. -/
def resC7 : Reservation :=
  { deposit_amount := 120000
    deposit_payment_method := "NAKIT"
    reservation_date := 0
    payment_plan_selected := planC7 }

/-- Claim C7: the generated schedule is claimed to consist of installments
due at `startDate + 30*(i-1)` together with a DownPayment dated at the same
`startDate`.  This is FALSE of the code for any choice of `startDate`: at
the concrete schedule below the DownPayment is dated at the reservation
date (day 0) while the first installment is due 30 days later (day 30), so
no single `startDate` can be both the DownPayment date and the first
installment's due date. -/
theorem claim7_counterexample :
    ((create_installment_schedule resC7 planC7).map
        Payment.payment_type).take 2
      = [PaymentType.pesinat, PaymentType.taksit]
    ∧ ((create_installment_schedule resC7 planC7).map
        Payment.installment_number).take 2 = [none, some 1]
    ∧ ((create_installment_schedule resC7 planC7).map
        Payment.due_date).take 2 = [0, 30]
    ∧ ((0 : ℤ) ≠ 30) := by
  refine ⟨rfl, rfl, rfl, by decide⟩

/-- Claim C7 (amended): for an installment count N ≥ 1, the generated
schedule contains exactly N installment payments, all initially Pending,
the k-th (0-based) due `firstInstallmentDate + 30*k` where
`firstInstallmentDate` is 30 days after the reservation date; and when the
plan's down-payment amount is positive, exactly one extra DownPayment
payment is created, dated (due and paid) at the reservation date — 30 days
BEFORE the first installment, not at the installment start date — and
marked Paid. -/
theorem claim7_schedule (r : Reservation) (plan : PaymentPlan) (N : ℕ)
    (hc : plan.details.installment_count = some (N : ℤ)) (hN : 1 ≤ N) :
    (installmentsOf (create_installment_schedule r plan)).length = N
    ∧ (∀ k, k < N →
        (installmentsOf (create_installment_schedule r plan))[k]? =
          some { payment_type := PaymentType.taksit
                 amount := plan.details.monthly_installment.getD 0
                 status := PaymentStatus.bekleniyor
                 due_date := r.reservation_date + 30 + 30 * (k : ℤ)
                 installment_number := some (k + 1) })
    ∧ (plan.details.down_payment_amount.getD 0 > 0 →
        (create_installment_schedule r plan).countP
            (fun q => decide (q.payment_type = PaymentType.pesinat)) = 1
        ∧ ∀ q ∈ create_installment_schedule r plan,
            q.payment_type = PaymentType.pesinat →
            q.due_date = r.reservation_date
            ∧ q.status = PaymentStatus.alindi
            ∧ q.amount = plan.details.down_payment_amount.getD 0
            ∧ q.payment_date = some r.reservation_date) := by
  have hsched : create_installment_schedule r plan =
      (if plan.details.down_payment_amount.getD 0 > 0 then
          [{ payment_type := PaymentType.pesinat
             amount := plan.details.down_payment_amount.getD 0
             status := PaymentStatus.alindi
             due_date := r.reservation_date
             payment_date := some r.reservation_date
             payment_method := r.deposit_payment_method
             receipt_number := r.deposit_receipt_number }]
        else [])
      ++ (List.range N).map (fun (k : ℕ) =>
          { payment_type := PaymentType.taksit
            amount := plan.details.monthly_installment.getD 0
            status := PaymentStatus.bekleniyor
            due_date := r.reservation_date + 30 + 30 * (k : ℤ)
            installment_number := some (k + 1) }) := by
    simp only [create_installment_schedule]
    rw [hc]
    simp only [Option.getD_some, Int.toNat_natCast]
  have hinst : installmentsOf (create_installment_schedule r plan) =
      (List.range N).map (fun (k : ℕ) =>
        { payment_type := PaymentType.taksit
          amount := plan.details.monthly_installment.getD 0
          status := PaymentStatus.bekleniyor
          due_date := r.reservation_date + 30 + 30 * (k : ℤ)
          installment_number := some (k + 1) }) := by
    unfold installmentsOf
    rw [hsched, List.filter_append]
    have h1 : (if plan.details.down_payment_amount.getD 0 > 0 then
        ([{ payment_type := PaymentType.pesinat
            amount := plan.details.down_payment_amount.getD 0
            status := PaymentStatus.alindi
            due_date := r.reservation_date
            payment_date := some r.reservation_date
            payment_method := r.deposit_payment_method
            receipt_number := r.deposit_receipt_number }] : List Payment)
        else []).filter
        (fun p => decide (p.payment_type = PaymentType.taksit)) = [] := by
      by_cases hd : plan.details.down_payment_amount.getD 0 > 0
      · rw [if_pos hd]; rfl
      · rw [if_neg hd]; rfl
    rw [h1, List.nil_append]
    apply List.filter_eq_self.mpr
    intro a ha
    obtain ⟨k, _, rfl⟩ := List.mem_map.mp ha
    simp
  refine ⟨?_, ?_, ?_⟩
  · rw [hinst, List.length_map, List.length_range]
  · intro k hk
    rw [hinst, List.getElem?_map, List.getElem?_range hk]
    rfl
  · intro hdpa
    constructor
    · rw [hsched, List.countP_append, if_pos hdpa]
      have h2 : ((List.range N).map (fun (k : ℕ) =>
          ({ payment_type := PaymentType.taksit
             amount := plan.details.monthly_installment.getD 0
             status := PaymentStatus.bekleniyor
             due_date := r.reservation_date + 30 + 30 * (k : ℤ)
             installment_number := some (k + 1) } : Payment))).countP
          (fun q => decide (q.payment_type = PaymentType.pesinat)) = 0 := by
        rw [List.countP_map]
        apply List.countP_eq_zero.mpr
        intro a _
        simp
      rw [h2]
      rfl
    · intro q hq hqt
      rw [hsched] at hq
      rcases List.mem_append.mp hq with hql | hqr
      · rw [if_pos hdpa] at hql
        rcases List.mem_singleton.mp hql with rfl
        exact ⟨rfl, rfl, rfl, rfl⟩
      · obtain ⟨k, _, rfl⟩ := List.mem_map.mp hqr
        exact absurd hqt (by simp)

/-- Witness for C7's amended theorem at the concrete six-installment
plan. -/
theorem claim7_witness :
    (installmentsOf (create_installment_schedule resC7 planC7)).length = 6 :=
  (claim7_schedule resC7 planC7 6 rfl (by decide)).1

end CoreCRM
